import Mathlib

/-!
Verification of the goweb gRPC-to-HTTP binding generator
(internal/grpc/grpc.go).

The generator consumes protobuf service descriptors and emits, for each
service, a router-construction function and one HTTP handler per method.
We embed the route-planning logic of generateService (the default path,
the quote-split override rule on the raw options blob, the lower-casing
at registration, and the prefix concatenation) and the runtime semantics
of the handler code emitted by generateServerMethod (the unary
read/decode/invoke/encode pipeline with its 408/400/500 status taxonomy,
and the 501 rejection of streaming methods).

External capabilities (the identifier camel-casing helper of the
generator package, JSON decode/encode, the body reader and the injected
service implementation) are modelled as parameters; the camel-casing
capability, whose code is not part of this repository, is modelled from
the spec.
-/

set_option maxRecDepth 4000

namespace GrpcWeb

/-- A method descriptor as consumed by generateService: the raw name,
opaque input/output type references, the two streaming flags, and the
raw options blob obtained from method.GetOptions().String(). -/
structure MethodDescriptor where
  name : String
  inputType : String
  outputType : String
  serverStreaming : Bool
  clientStreaming : Bool
  rawOptionsBlob : String
  deriving Repr, DecidableEq

/-- A service descriptor: its name and the ordered method list. -/
structure ServiceDescriptor where
  name : String
  methods : List MethodDescriptor
  deriving Repr, DecidableEq

/-- Modelled from the spec: the identifier-casing capability
(generator.CamelCase of the generator package, which is not part of this
repository): stable camel-casing of raw names, capitalising the first
letter and each letter following an underscore while dropping the
underscores. -/
def camelCaseAux : Bool → List Char → List Char
  | _, [] => []
  | up, c :: cs =>
    if c = '_' then camelCaseAux true cs
    else (if up then c.toUpper else c) :: camelCaseAux false cs

/-- Modelled from the spec: see camelCaseAux. -/
def camelCase (s : String) : String := String.mk (camelCaseAux true s.data)

/-- Embedding of Go strings.ToLower as used on ASCII identifiers and
paths: lower-case every character. -/
def stringsToLower (s : String) : String := String.mk (s.data.map Char.toLower)

/-- Embedding of Go strings.Split(s, sep) specialised to the quote
separator used at line 160 of grpc.go: cut the character list at every
quote, keeping empty segments. -/
def splitQuoteAux : List Char → List Char → List String
  | [], acc => [String.mk acc.reverse]
  | c :: cs, acc =>
    if c = '\"' then String.mk acc.reverse :: splitQuoteAux cs []
    else splitQuoteAux cs (c :: acc)

/-- Go strings.Split(s, quote): the list of quote-separated segments. -/
def splitQuote (s : String) : List String := splitQuoteAux s.data []

/-- The route path planned for one method by the loop body of
generateService (grpc.go lines 154-166): the default
lowercase(servName) + "/" + name, overridden by the second quote-split
part of the options blob when the blob is non-empty, splits into exactly
three parts and the first part is the sentinel 10000: . -/
def plannedPath (servName : String) (m : MethodDescriptor) : String :=
  let path := stringsToLower servName ++ "/" ++ m.name
  if m.rawOptionsBlob ≠ "" then
    let parts := splitQuote m.rawOptionsBlob
    if parts.length = 3 then
      if parts.getD 0 "" = "10000:" then parts.getD 1 "" else path
    else path
  else path

/-- The identifier naming the emitted handler method for one method
(methName in grpc.go, lines 156 and 210): the camel-cased method name. -/
def handlerMethodName (m : MethodDescriptor) : String := camelCase m.name

/-- The handler-name string computed by generateServerMethod at line 211
of grpc.go: fmt.Sprintf with the service name and the camel-cased
method name. -/
def hname (servName : String) (m : MethodDescriptor) : String :=
  "_" ++ servName ++ "_" ++ camelCase m.name ++ "_Handler"

/-- Stated from the spec words, for comparison with hname: the
handler-name shape the spec describes, with a Server suffix on the
service segment. -/
def specStyleHandlerName (servName methName : String) : String :=
  "_" ++ servName ++ "Server_" ++ methName ++ "_Handler"

/-- One route binding as registered by the emitted router.Handle line
(grpc.go line 167): the registered path, the handler identifier and the
method it serves. -/
structure RouteBinding where
  path : String
  handlerName : String
  method : MethodDescriptor
  deriving Repr, DecidableEq

/-- The binding registered for one method: the caller-supplied prefix
concatenated directly with the lower-cased planned path, served by the
camel-cased handler identifier. -/
def routeBindingFor (pfx servName : String) (m : MethodDescriptor) : RouteBinding :=
  { path := pfx ++ stringsToLower (plannedPath servName m)
    handlerName := handlerMethodName m
    method := m }

/-- The ordered route table produced by the registration loop of
generateService: one binding per method, in declaration order. -/
def planRoutes (pfx : String) (svc : ServiceDescriptor) : List RouteBinding :=
  svc.methods.map (routeBindingFor pfx (camelCase svc.name))

/-- The observable outcome of one invocation of an emitted handler: the
explicitly written status (none when no WriteHeader is reached), the
response body, whether the request body was read and closed, whether the
injected service implementation was invoked, and the messages sent to
the log sink. -/
structure HandlerResult where
  status : Option Nat
  body : String
  bodyRead : Bool
  bodyClosed : Bool
  serviceInvoked : Bool
  logged : List String
  deriving Repr, DecidableEq

/-- The fixed body written by the streaming rejection branch emitted at
lines 222-223 of grpc.go. -/
def streamingRejectBody : String := "Streaming functions over http are not supported"

/-- Runtime semantics of the unary handler body emitted at lines 226-249
of grpc.go, with the external capabilities as parameters: read the whole
body (the deferred close then holds on every return), on read failure
write 408 with the error text and log it; decode the content as JSON
into the input type, on failure write 400 with the error text and log
it; invoke the injected implementation, on error write 500 with the
error text and log it; on success encode the result onto the response
with no explicit status. -/
def runUnaryHandler {In Out : Type} (decode : String → Except String In)
    (service : In → Except String Out) (encode : Out → String)
    (readBody : Except String String) : HandlerResult :=
  match readBody with
  | .error e => ⟨some 408, e, true, true, false, [e]⟩
  | .ok content =>
    match decode content with
    | .error e => ⟨some 400, e, true, true, false, [e]⟩
    | .ok input =>
      match service input with
      | .error e => ⟨some 500, e, true, true, true, [e]⟩
      | .ok res => ⟨none, encode res, true, true, true, []⟩

/-- Runtime semantics of the full handler emitted by generateServerMethod
(lines 219-251 of grpc.go): when either streaming flag is set, write 501
with the fixed rejection body and return without touching the request
body or the service; otherwise run the unary pipeline. -/
def runHandler {In Out : Type} (m : MethodDescriptor)
    (decode : String → Except String In) (service : In → Except String Out)
    (encode : Out → String) (readBody : Except String String) : HandlerResult :=
  if m.serverStreaming || m.clientStreaming then
    ⟨some 501, streamingRejectBody, false, false, false, []⟩
  else
    runUnaryHandler decode service encode readBody

/-- The Say method of the spec's end-to-end Echo scenario: unary, no
options blob. -/
def sayMethod : MethodDescriptor :=
  ⟨"Say", "EchoRequest", "EchoReply", false, false, ""⟩

/-- A unary method carrying a well-formed override blob. -/
def ovrMethod : MethodDescriptor :=
  ⟨"Say", "EchoRequest", "EchoReply", false, false, "10000:\"/Custom/Path\""⟩

/-- A server-streaming method, as in the spec's Stream scenario. -/
def streamMethod : MethodDescriptor :=
  ⟨"Stream", "EchoRequest", "EchoReply", true, false, ""⟩

/-- A unary method whose raw name is not already camel-cased. -/
def snakeMethod : MethodDescriptor :=
  ⟨"say", "EchoRequest", "EchoReply", false, false, ""⟩

/-- The Echo service of the spec's end-to-end scenario. -/
def echoService : ServiceDescriptor := ⟨"Echo", [sayMethod, streamMethod]⟩

/-- Sample decode capability for witnesses: accepts exactly the string
good. -/
def wDecode (s : String) : Except String Nat :=
  if s = "good" then .ok 1 else .error "bad json"

/-- Sample service capability for witnesses: accepts exactly the input
1. -/
def wService (n : Nat) : Except String Nat :=
  if n = 1 then .ok 2 else .error "boom"

/-- Sample encode capability for witnesses. -/
def wEncode (n : Nat) : String := toString n

/-- Helper: when the blob is non-empty, splits into exactly three parts
and carries the sentinel, the planned path is the second part. -/
theorem plannedPath_of_override (servName : String) (m : MethodDescriptor)
    (h1 : m.rawOptionsBlob ≠ "") (h2 : (splitQuote m.rawOptionsBlob).length = 3)
    (h3 : (splitQuote m.rawOptionsBlob).getD 0 "" = "10000:") :
    plannedPath servName m = (splitQuote m.rawOptionsBlob).getD 1 "" := by
  simp only [plannedPath]
  rw [if_pos h1, if_pos h2, if_pos h3]

/-- Helper: in every other case the planned path is the default one. -/
theorem plannedPath_of_default (servName : String) (m : MethodDescriptor)
    (h : ¬(m.rawOptionsBlob ≠ "" ∧ (splitQuote m.rawOptionsBlob).length = 3 ∧
        (splitQuote m.rawOptionsBlob).getD 0 "" = "10000:")) :
    plannedPath servName m = stringsToLower servName ++ "/" ++ m.name := by
  simp only [plannedPath]
  by_cases h1 : m.rawOptionsBlob = ""
  · rw [if_neg (fun hne => hne h1)]
  · by_cases h2 : (splitQuote m.rawOptionsBlob).length = 3
    · by_cases h3 : (splitQuote m.rawOptionsBlob).getD 0 "" = "10000:"
      · exact absurd ⟨h1, h2, h3⟩ h
      · rw [if_pos h1, if_pos h2, if_neg h3]
    · rw [if_pos h1, if_neg h2]

/-- Claim C1: for a method whose raw options blob is non-empty, splits on
the quote character into exactly three parts, and whose first part is
the literal sentinel 10000:, the planned route path is the second part
in place of the default; for every other blob (empty, malformed or wrong
sentinel) the blob is ignored and the default path is used, and planning
(a total function) never fails. -/
theorem overridePlanning (servName : String) (m : MethodDescriptor) :
    (m.rawOptionsBlob ≠ "" ∧ (splitQuote m.rawOptionsBlob).length = 3 ∧
        (splitQuote m.rawOptionsBlob).getD 0 "" = "10000:" →
      plannedPath servName m = (splitQuote m.rawOptionsBlob).getD 1 "") ∧
    (¬(m.rawOptionsBlob ≠ "" ∧ (splitQuote m.rawOptionsBlob).length = 3 ∧
        (splitQuote m.rawOptionsBlob).getD 0 "" = "10000:") →
      plannedPath servName m = stringsToLower servName ++ "/" ++ m.name) :=
  ⟨fun h => plannedPath_of_override servName m h.1 h.2.1 h.2.2,
   fun h => plannedPath_of_default servName m h⟩

/-- Witness for C1: a well-formed override blob routes to the override
path, and an empty blob falls back to the default. -/
theorem overridePlanning_witness :
    plannedPath "Echo" ovrMethod = "/Custom/Path" ∧
    plannedPath "Echo" sayMethod = "echo/Say" :=
  ⟨((overridePlanning "Echo" ovrMethod).1 ⟨by decide, by decide, by decide⟩).trans
      (by decide),
   ((overridePlanning "Echo" sayMethod).2 (by decide)).trans (by decide)⟩

/-- Claim C2: with no recognised override, the planned path is
lowercase(serviceName) + "/" + methodName with the method name verbatim;
the registered path is the caller prefix followed by the lower-cased
chosen path; and the end-to-end Echo example with method Say, no
streaming and no override yields route echo/say. -/
theorem defaultRouteLowercased (pfx servName : String) (m : MethodDescriptor) :
    (¬(m.rawOptionsBlob ≠ "" ∧ (splitQuote m.rawOptionsBlob).length = 3 ∧
        (splitQuote m.rawOptionsBlob).getD 0 "" = "10000:") →
      plannedPath servName m = stringsToLower servName ++ "/" ++ m.name) ∧
    (routeBindingFor pfx servName m).path = pfx ++ stringsToLower (plannedPath servName m) ∧
    (routeBindingFor "" "Echo" sayMethod).path = "echo/say" :=
  ⟨fun h => plannedPath_of_default servName m h, rfl, by decide⟩

/-- Witness for C2 at the Echo service with method Say and empty blob. -/
theorem defaultRouteLowercased_witness :
    plannedPath "Echo" sayMethod = stringsToLower "Echo" ++ "/" ++ sayMethod.name ∧
    (routeBindingFor "" "Echo" sayMethod).path = "echo/say" :=
  ⟨(defaultRouteLowercased "" "Echo" sayMethod).1 (by decide),
   (defaultRouteLowercased "" "Echo" sayMethod).2.2⟩

/-- Claim C3: the emitted unary handler surfaces exactly this taxonomy:
an unreadable body yields 408 with the error text as body and no service
invocation; a body failing JSON decoding yields 400 with the error text
as body and no service invocation; a service-level error yields 500 with
the error text as body; on success the result is encoded onto the
response with no explicit status set. -/
theorem unaryTaxonomy {In Out : Type} (m : MethodDescriptor)
    (decode : String → Except String In) (service : In → Except String Out)
    (encode : Out → String)
    (hs : m.serverStreaming = false) (hc : m.clientStreaming = false) :
    (∀ e, runHandler m decode service encode (.error e) =
        ⟨some 408, e, true, true, false, [e]⟩) ∧
    (∀ content e, decode content = .error e →
      runHandler m decode service encode (.ok content) =
        ⟨some 400, e, true, true, false, [e]⟩) ∧
    (∀ content i e, decode content = .ok i → service i = .error e →
      runHandler m decode service encode (.ok content) =
        ⟨some 500, e, true, true, true, [e]⟩) ∧
    (∀ content i res, decode content = .ok i → service i = .ok res →
      runHandler m decode service encode (.ok content) =
        ⟨none, encode res, true, true, true, []⟩) := by
  refine ⟨fun e => ?_, fun c e hd => ?_, fun c i e hd hv => ?_, fun c i r hd hv => ?_⟩
  · simp [runHandler, hs, hc, runUnaryHandler]
  · simp [runHandler, hs, hc, runUnaryHandler, hd]
  · simp [runHandler, hs, hc, runUnaryHandler, hd, hv]
  · simp [runHandler, hs, hc, runUnaryHandler, hd, hv]

/-- Witness for C3 at the sample capabilities: a read failure, a decode
failure, and a full success. -/
theorem unaryTaxonomy_witness :
    runHandler sayMethod wDecode wService wEncode (Except.error "eof") =
      ⟨some 408, "eof", true, true, false, ["eof"]⟩ ∧
    runHandler sayMethod wDecode wService wEncode (Except.ok "nope") =
      ⟨some 400, "bad json", true, true, false, ["bad json"]⟩ ∧
    runHandler sayMethod wDecode wService wEncode (Except.ok "good") =
      ⟨none, "2", true, true, true, []⟩ :=
  ⟨(unaryTaxonomy sayMethod wDecode wService wEncode rfl rfl).1 "eof",
   (unaryTaxonomy sayMethod wDecode wService wEncode rfl rfl).2.1 "nope" "bad json" rfl,
   ((unaryTaxonomy sayMethod wDecode wService wEncode rfl rfl).2.2.2 "good" 1 2 rfl
      rfl).trans (by decide)⟩

/-- Claim C4: for a method with either streaming flag set, the emitted
handler on any input writes status 501 with the fixed rejection body,
performs no decoding or encoding, and never invokes the injected
service implementation. -/
theorem streamingRejects {In Out : Type} (m : MethodDescriptor)
    (decode : String → Except String In) (service : In → Except String Out)
    (encode : Out → String) (readBody : Except String String)
    (h : m.serverStreaming = true ∨ m.clientStreaming = true) :
    runHandler m decode service encode readBody =
      ⟨some 501, streamingRejectBody, false, false, false, []⟩ := by
  rcases h with h | h <;> simp [runHandler, h]

/-- Witness for C4 at the server-streaming Stream method. -/
theorem streamingRejects_witness :
    runHandler streamMethod wDecode wService wEncode (Except.ok "anything") =
      ⟨some 501, streamingRejectBody, false, false, false, []⟩ :=
  streamingRejects streamMethod wDecode wService wEncode (Except.ok "anything")
    (Or.inl rfl)

/-- Claim C5: every invocation of an emitted unary handler closes the
request body before returning, on every exit path: success, body-read
failure, decode failure, and service failure. -/
theorem unaryClosesBody {In Out : Type} (m : MethodDescriptor)
    (decode : String → Except String In) (service : In → Except String Out)
    (encode : Out → String) (readBody : Except String String)
    (hs : m.serverStreaming = false) (hc : m.clientStreaming = false) :
    (runHandler m decode service encode readBody).bodyClosed = true := by
  cases readBody with
  | error e => simp [runHandler, hs, hc, runUnaryHandler]
  | ok c =>
    cases hd : decode c with
    | error e => simp [runHandler, hs, hc, runUnaryHandler, hd]
    | ok i =>
      cases hv : service i with
      | error e => simp [runHandler, hs, hc, runUnaryHandler, hd, hv]
      | ok r => simp [runHandler, hs, hc, runUnaryHandler, hd, hv]

/-- Witness for C5 at a concrete successful invocation. -/
theorem unaryClosesBody_witness :
    (runHandler sayMethod wDecode wService wEncode (Except.ok "good")).bodyClosed = true :=
  unaryClosesBody sayMethod wDecode wService wEncode (Except.ok "good") rfl rfl

/-- Claim C6: the planner produces exactly one route binding per method,
streaming methods included, in descriptor order, with no reordering or
deduplication, each binding naming that method's handler. -/
theorem oneBindingPerMethod (pfx : String) (svc : ServiceDescriptor) :
    (planRoutes pfx svc).map RouteBinding.method = svc.methods ∧
    (planRoutes pfx svc).length = svc.methods.length ∧
    ∀ b ∈ planRoutes pfx svc, b.handlerName = handlerMethodName b.method := by
  refine ⟨?_, ?_, ?_⟩
  · have hcomp : RouteBinding.method ∘ routeBindingFor pfx (camelCase svc.name) = id := by
      funext m; rfl
    rw [planRoutes, List.map_map, hcomp, List.map_id]
  · simp [planRoutes]
  · intro b hb
    simp only [planRoutes, List.mem_map] at hb
    obtain ⟨m, _, rfl⟩ := hb
    rfl

/-- Witness for C6 at the Echo service, whose streaming method also gets
its binding. -/
theorem oneBindingPerMethod_witness :
    (planRoutes "" echoService).map RouteBinding.method = echoService.methods ∧
    (routeBindingFor "" (camelCase echoService.name) streamMethod).handlerName =
      handlerMethodName streamMethod :=
  ⟨(oneBindingPerMethod "" echoService).1,
   (oneBindingPerMethod "" echoService).2.2 _ (by decide)⟩

/-- Claim C7 counterexample: the handler-name string computed for service
Echo and method Say is _Echo_Say_Handler, which is not the
_EchoServer_Say_Handler shape the claim describes. -/
theorem hnameNotSpecStyle :
    hname "Echo" sayMethod = "_Echo_Say_Handler" ∧
    specStyleHandlerName "Echo" "Say" = "_EchoServer_Say_Handler" ∧
    hname "Echo" sayMethod ≠ specStyleHandlerName "Echo" "Say" :=
  ⟨by decide, by decide, by decide⟩

/-- Claim C7 amended: the handler name is derived deterministically from
the service name and the method name, in the _<Service>_<Method>_Handler
shape with the camel-cased method name (no Server suffix on the service
segment). -/
theorem hnameDeterministic (servName : String) (m m2 : MethodDescriptor) :
    hname servName m = "_" ++ servName ++ "_" ++ camelCase m.name ++ "_Handler" ∧
    (m2.name = m.name → hname servName m2 = hname servName m) :=
  ⟨rfl, fun h => by simp [hname, h]⟩

/-- Witness for the amended C7 at service Echo and method Say. -/
theorem hnameDeterministic_witness :
    hname "Echo" sayMethod =
      "_" ++ "Echo" ++ "_" ++ camelCase sayMethod.name ++ "_Handler" ∧
    hname "Echo" sayMethod = hname "Echo" sayMethod :=
  ⟨(hnameDeterministic "Echo" sayMethod sayMethod).1,
   (hnameDeterministic "Echo" sayMethod sayMethod).2 rfl⟩

/-- Claim C8 counterexample: for the unary method named say, the default
route path keeps the verbatim name say, while the handler-naming
identifier is the camel-cased Say, so the segment does not match the
identifier used for handler naming. -/
theorem segmentNotHandlerId :
    plannedPath "Echo" snakeMethod = "echo/say" ∧
    handlerMethodName snakeMethod = "Say" ∧
    plannedPath "Echo" snakeMethod ≠ "echo/" ++ handlerMethodName snakeMethod :=
  ⟨by decide, by decide, by decide⟩

/-- Claim C8 amended: the method-name segment of the default route path
is the descriptor's method name taken verbatim (not case-converted); the
handler-naming identifier is the camel-cased method name, and the two
coincide exactly when camel-casing leaves the method name unchanged. -/
theorem segmentVerbatim (servName : String) (m : MethodDescriptor)
    (h : ¬(m.rawOptionsBlob ≠ "" ∧ (splitQuote m.rawOptionsBlob).length = 3 ∧
        (splitQuote m.rawOptionsBlob).getD 0 "" = "10000:")) :
    plannedPath servName m = stringsToLower servName ++ "/" ++ m.name ∧
    handlerMethodName m = camelCase m.name ∧
    (camelCase m.name = m.name →
      plannedPath servName m = stringsToLower servName ++ "/" ++ handlerMethodName m) := by
  refine ⟨plannedPath_of_default servName m h, rfl, fun hc => ?_⟩
  rw [plannedPath_of_default servName m h, handlerMethodName, hc]

/-- Witness for the amended C8 at the already camel-cased method Say. -/
theorem segmentVerbatim_witness :
    plannedPath "Echo" sayMethod = stringsToLower "Echo" ++ "/" ++ sayMethod.name ∧
    plannedPath "Echo" sayMethod =
      stringsToLower "Echo" ++ "/" ++ handlerMethodName sayMethod :=
  ⟨(segmentVerbatim "Echo" sayMethod (by decide)).1,
   (segmentVerbatim "Echo" sayMethod (by decide)).2.2 (by decide)⟩

/-- Claim C9: on the streaming rejection path the emitted handler neither
reads nor closes the request body; the body-release guarantee is a
property of the unary path only. -/
theorem streamingBodyUntouched {In Out : Type} (m : MethodDescriptor)
    (decode : String → Except String In) (service : In → Except String Out)
    (encode : Out → String) (readBody : Except String String)
    (h : m.serverStreaming = true ∨ m.clientStreaming = true) :
    (runHandler m decode service encode readBody).bodyRead = false ∧
    (runHandler m decode service encode readBody).bodyClosed = false := by
  rcases h with h | h <;> simp [runHandler, h]

/-- Witness for C9 at the server-streaming Stream method. -/
theorem streamingBodyUntouched_witness :
    (runHandler streamMethod wDecode wService wEncode (Except.ok "x")).bodyRead = false ∧
    (runHandler streamMethod wDecode wService wEncode (Except.ok "x")).bodyClosed = false :=
  streamingBodyUntouched streamMethod wDecode wService wEncode (Except.ok "x")
    (Or.inl rfl)

/-- Claim C10: every path registered on the router is the caller-supplied
prefix concatenated directly with the lower-cased planned path, with no
separator character inserted between the two. -/
theorem registeredPathConcat (pfx : String) (svc : ServiceDescriptor)
    (b : RouteBinding) (hb : b ∈ planRoutes pfx svc) :
    b.path = pfx ++ stringsToLower (plannedPath (camelCase svc.name) b.method) := by
  simp only [planRoutes, List.mem_map] at hb
  obtain ⟨m, _, rfl⟩ := hb
  rfl

/-- Witness for C10: with prefix api and the Echo service the registered
path is apiecho/say, with no separator inserted. -/
theorem registeredPathConcat_witness :
    (routeBindingFor "api" (camelCase echoService.name) sayMethod).path = "apiecho/say" :=
  (registeredPathConcat "api" echoService
      (routeBindingFor "api" (camelCase echoService.name) sayMethod) (by decide)).trans
    (by decide)

end GrpcWeb
